import Mathlib

/-!
Shallow embedding of the python-ivi instrument drivers
`src/ivi/R&S/hmp2020.py` (R&S HMP2020 DC power supply) and
`src/ivi/rigol/rigolDG1022Z.py` (Rigol DG1022Z waveform generator).

Python floats are modelled as exact rationals (ℚ): every numeric literal and
operation appearing in the embedded code paths (comparisons, `(f+1)/2`,
`f*4094+0.5`, `int(...)`) is exact on the inputs the claims exercise.
Machine integers do not occur; Python ints are unbounded and map to ℤ/ℕ.
Physical transport I/O is modelled as an explicit event trace.
-/

namespace PyIvi

/-- Exceptions raised by the drivers (`ivi.OutOfRangeException`,
`ivi.ValueNotSupportedException`), plus Python-level `IndexError` and the
channel-selector failure of the base library. -/
inductive IviError
  | outOfRange
  | valueNotSupported
  | indexError
  | unknownChannel
deriving DecidableEq, Repr

/-- Python `int(q)` on a float: truncation toward zero. -/
def pyInt (q : ℚ) : ℤ := if 0 ≤ q then ⌊q⌋ else ⌈q⌉

/-- One sample of `_arbitrary_waveform_create`'s clipping step
(`if f > 1.0: f = 1.0` then `if f < -1.0: f = -1.0`, applied in that order). -/
def clipSample (f : ℚ) : ℚ :=
  if (if f > 1 then 1 else f) < -1 then -1 else (if f > 1 then 1 else f)

/-- The 12-bit code computed per sample in `_arbitrary_waveform_create`
(rigolDG1022Z.py lines 512-520):
`f = (f + 1) / 2` after clipping, then
`i = int(f * ((1 << 12) - 2) + 0.5) & 0x000fffff`.
In Lean, Python's `& 0x000fffff` (mask to 20 bits, two's complement) is
`% 2^20` with Euclidean (always nonnegative) remainder, which agrees with
Python's semantics for this mask. -/
def quantCode (f : ℚ) : ℕ :=
  ((pyInt ((clipSample f + 1) / 2 * ((2 ^ 12 : ℚ) - 2) + 1 / 2)) % (2 ^ 20 : ℤ)).toNat

/-- `struct.pack('>H', n)`: big-endian 2-byte unsigned packing. The codes
produced by `quantCode` are at most 4094 < 2^16, so the pack never fails. -/
def pack2be (n : ℕ) : List ℕ := [n / 256 % 256, n % 256]

/-- The two bytes appended to `raw_data` for one input sample. -/
def quantSample (f : ℚ) : List ℕ := pack2be (quantCode f)

/-- The full `raw_data` byte string built by the sample loop. -/
def rawData (y : List ℚ) : List ℕ := (y.map quantSample).flatten

/-!
## Wire commands and the transport event trace

Each constructor of `Cmd` stands for one distinct ASCII command template
appearing in the two drivers, carrying the values interpolated into the
template (numeric formatting `%d` / `%.2f` / `%e` is kept as the exact
carried value, since no claim depends on the decimal rendering).
-/

inductive Cmd
  /-- Template `"instrument:nselect %d"` (hmp2020 channel select) -/
  | instrumentNselect (n : ℕ)
  /-- Template `"CURR?"` -/
  | currQuery
  /-- Template `"CURR %.2f"` -/
  | currWrite (v : ℚ)
  /-- Template `"VOLT?"` -/
  | voltQuery
  /-- Template `"VOLT %.2f"` -/
  | voltWrite (v : ℚ)
  /-- Template `"OUTP:SEL %d"` (hmp2020; the source passes `index+1` as a second
  argument to `_write` instead of %-formatting it; modelled as the formatted
  selection command per the spec's one-string transport `write`) -/
  | outpSel (n : ℕ)
  /-- Template `"OUTP 1"` / `"OUTP 0"` -/
  | outp (b : Bool)
  /-- Template `":OUTP%d:state ON"` / `":OUTP%d:state OFF"` (rigol) -/
  | outpChanState (n : ℕ) (b : Bool)
  /-- Template `":OUTP%d:state?"` (rigol) -/
  | outpChanStateQuery (n : ℕ)
  /-- Template `":OUTP%d:IMPedance %d"` (rigol) -/
  | outpImpedance (n : ℕ) (v : ℤ)
  /-- Template `"SOUR%d:FREQuency %e"` (rigol) -/
  | sourFreq (n : ℕ) (v : ℚ)
  /-- Template `"SOUR%d:FREQuency?"` (rigol) -/
  | sourFreqQuery (n : ℕ)
  /-- Template `":SYSTem:ROSCillator:SOURce %s"` (rigol) -/
  | roscSource (s : String)
  /-- Template `":SOUR%d:FUNC:PULS:DCYC %i"`; the source's hardcoded write
  `":SOUR1:FUNC:PULS:DCYC 45 "` is `dcyc 1 45` (trailing space immaterial) -/
  | dcyc (n : ℕ) (v : ℤ)
  /-- Template `":MEMory:STATe:CATalog?"` (rigol) -/
  | memStateCatalogQuery
  /-- Template `":data:destination \x22%s\x22"` -/
  | dataDestination (handle : String)
  /-- Template `":wfmpre:bit_nr 12"` -/
  | wfmpreBitNr (n : ℕ)
  /-- Template `":wfmpre:bn_fmt rp"` -/
  | wfmpreBnFmt
  /-- Template `":wfmpre:byt_nr 2"` -/
  | wfmpreBytNr (n : ℕ)
  /-- Template `":wfmpre:byt_or msb"` -/
  | wfmpreBytOr
  /-- Template `":wfmpre:encdg bin"` -/
  | wfmpreEncdg
  /-- Template `":wfmpre:pt_fmt y"` -/
  | wfmprePtFmt
  /-- Template `":wfmpre:yzero 0"` -/
  | wfmpreYzero (n : ℕ)
  /-- Template `":wfmpre:ymult %e"` carrying `2/(1<<12)` -/
  | wfmpreYmult (v : ℚ)
  /-- Template `":wfmpre:xincr %e"`; the carried value is the mean of squared
  x-differences (the square of the formatted rms value), since the square
  root of a rational leaves ℚ and no claim depends on the rendered number -/
  | wfmpreXincrSq (meanSq : ℚ)
deriving DecidableEq, Repr

/-- One physical transport exchange (a real wire access, never emitted while
simulating). -/
inductive Event
  | write (c : Cmd)
  | ask (c : Cmd)
  /-- Call `_write_ieee_block(payload, header)`. -/
  | blockWrite (header : String) (payload : List ℕ)
deriving DecidableEq, Repr

/-- Modelled from the spec: the base library's transport `write(command)`
(`ivi.Driver._write`, not under src/). "Simulated-mode flag (consumed,
boolean): when set, all physical I/O is skipped." -/
def baseWrite (simulate : Bool) (c : Cmd) : List Event :=
  if simulate then [] else [Event.write c]

/-- Modelled from the spec: the base library's transport
`ask(command) -> reply` physical exchange; skipped while simulating.
The typed reply itself is drawn from a device oracle at the call site,
abstracting the ASCII parse (`float(...)`, string compare) of the reply. -/
def baseAsk (simulate : Bool) (c : Cmd) : List Event :=
  if simulate then [] else [Event.ask c]

/-- Modelled from the spec: `writeBinaryBlock(bytes, commandPrefix)`
(`ivi.Driver._write_ieee_block`, not under src/); skipped while simulating. -/
def baseBlockWrite (simulate : Bool) (header : String) (payload : List ℕ) :
    List Event :=
  if simulate then [] else [Event.blockWrite header payload]

/-- Modelled from the spec: the base library's `ivi.get_index` channel
selector (not under src/): "resolveIndex(nameOrIndex) -> int maps a channel
name to its position in a fixed channel-name sequence; fails with
UnknownChannel if absent". Only integer indices are exercised here. -/
def get_index (count : ℕ) (i : ℕ) : Except IviError ℕ :=
  if i < count then .ok i else .error .unknownChannel

/-- Modelled from the spec: the base library's `_get_bool_str`, "true/false
must be serialized using the exact token pair ... observed as 1/0". -/
def getBoolStr (b : Bool) : String := if b then "1" else "0"

/-- Pointwise update of a cache column (one Python list-element assignment
`self._cache[index] = v`; per-channel caches are modelled as functions from
the channel index). -/
def upd {α : Type} (f : ℕ → α) (i : ℕ) (a : α) : ℕ → α :=
  fun j => if j = i then a else f j

/-- The loop `for k in range(count): self._set_cache_valid(valid=False, index=k)`
clearing one attribute's validity flag on every channel. -/
def clearFlags (count : ℕ) (f : ℕ → Bool) : ℕ → Bool :=
  fun j => if j < count then false else f j

/-- The result of one driver call: computed value or raised exception,
the driver state after the call (mutations before a raise are kept, as in
Python), and the physical I/O trace of the call. -/
abbrev DriverRes (σ : Type) (α : Type) := Except IviError α × σ × List Event

/-!
## R&S HMP2020 driver state and operations (hmp2020.py)
-/

/-- One entry of `self._output_spec` (hmp2020.py lines 52-62; the `range`
dictionary is omitted since no embedded code path reads it). -/
structure OutputSpec where
  ovp_max : ℚ
  voltage_max : ℚ
  current_max : ℚ
deriving DecidableEq, Repr

/-- The spec list constructed in `hmp2020.__init__` (note the source builds a
single entry although `_output_count` is 2). -/
def hmp2020_output_spec : List OutputSpec :=
  [{ ovp_max := 30, voltage_max := 30, current_max := 5 }]

/-- Mutable state of one hmp2020 driver instance. The per-channel caches
(`self._output_voltage_level` and friends, Python lists indexed by the
channel) are modelled as functions from the channel index. The
per-(channel, attribute) validity flags are the base library's cache store
(`_get_cache_valid` / `_set_cache_valid`, which infer the attribute key from
the calling getter/setter name), modelled from the spec's CachedAttribute
`(channelIndex, attributeKey) -> (value, validFlag)` contract. -/
structure HmpState where
  simulate : Bool
  output_count : ℕ
  output_spec : List OutputSpec
  output_voltage_level : ℕ → ℚ
  output_current_limit : ℕ → ℚ
  output_enabled : ℕ → Bool
  voltage_level_valid : ℕ → Bool
  current_limit_valid : ℕ → Bool
  enabled_valid : ℕ → Bool

/-- Typed oracle for hmp2020 device replies: the value parsed by
`float(self._ask("VOLT?"))` (resp. `"CURR?"`) after channel `n` (1-based)
has been selected by the preceding `instrument:nselect` write. -/
structure HmpDevice where
  voltReply : ℕ → ℚ
  currReply : ℕ → ℚ

/-- Embeds `hmp2020._get_output_voltage_level` (hmp2020.py lines 138-145). -/
def hmp_get_output_voltage_level (d : HmpDevice) (st : HmpState) (i : ℕ) :
    DriverRes HmpState ℚ :=
  match get_index st.output_count i with
  | .error e => (.error e, st, [])
  | .ok index =>
    if !st.simulate && !(st.voltage_level_valid index) then
      let evs := (if st.output_count > 1 then
          baseWrite st.simulate (.instrumentNselect (index + 1)) else [])
        ++ baseAsk st.simulate .voltQuery
      let st' := { st with
        output_voltage_level := upd st.output_voltage_level index (d.voltReply (index + 1)),
        voltage_level_valid := upd st.voltage_level_valid index true }
      (.ok (st'.output_voltage_level index), st', evs)
    else
      (.ok (st.output_voltage_level index), st, [])

/-- Embeds `hmp2020._get_output_current_limit` (hmp2020.py lines 115-122). -/
def hmp_get_output_current_limit (d : HmpDevice) (st : HmpState) (i : ℕ) :
    DriverRes HmpState ℚ :=
  match get_index st.output_count i with
  | .error e => (.error e, st, [])
  | .ok index =>
    if !st.simulate && !(st.current_limit_valid index) then
      let evs := (if st.output_count > 1 then
          baseWrite st.simulate (.instrumentNselect (index + 1)) else [])
        ++ baseAsk st.simulate .currQuery
      let st' := { st with
        output_current_limit := upd st.output_current_limit index (d.currReply (index + 1)),
        current_limit_valid := upd st.current_limit_valid index true }
      (.ok (st'.output_current_limit index), st', evs)
    else
      (.ok (st.output_current_limit index), st, [])

/-- Embeds `hmp2020._set_output_voltage_level` (hmp2020.py lines 169-183):
symmetric range check for `voltage_max >= 0`, inverted check otherwise;
on success, channel select and `VOLT %.2f` write unless simulating, then
cache update and flag validation. -/
def hmp_set_output_voltage_level (st : HmpState) (i : ℕ) (value : ℚ) :
    DriverRes HmpState Unit :=
  match get_index st.output_count i with
  | .error e => (.error e, st, [])
  | .ok index =>
    match st.output_spec[index]? with
    | none => (.error .indexError, st, [])
    | some spec =>
      let proceed : DriverRes HmpState Unit :=
        let evs := if st.simulate then [] else
          (if st.output_count > 1 then
            baseWrite st.simulate (.instrumentNselect (index + 1)) else [])
          ++ baseWrite st.simulate (.voltWrite value)
        (.ok (), { st with
          output_voltage_level := upd st.output_voltage_level index value,
          voltage_level_valid := upd st.voltage_level_valid index true }, evs)
      if spec.voltage_max ≥ 0 then
        if value < 0 ∨ value > spec.voltage_max then (.error .outOfRange, st, [])
        else proceed
      else
        if value > 0 ∨ value < spec.voltage_max then (.error .outOfRange, st, [])
        else proceed

/-- Embeds `hmp2020._set_output_current_limit` (hmp2020.py lines 125-135).
The source checks only `value < 0 or value > current_max`; there is no
negative-maximum branch in this setter. -/
def hmp_set_output_current_limit (st : HmpState) (i : ℕ) (value : ℚ) :
    DriverRes HmpState Unit :=
  match get_index st.output_count i with
  | .error e => (.error e, st, [])
  | .ok index =>
    match st.output_spec[index]? with
    | none => (.error .indexError, st, [])
    | some spec =>
      if value < 0 ∨ value > spec.current_max then (.error .outOfRange, st, [])
      else
        let evs := if st.simulate then [] else
          (if st.output_count > 1 then
            baseWrite st.simulate (.instrumentNselect (index + 1)) else [])
          ++ baseWrite st.simulate (.currWrite value)
        (.ok (), { st with
          output_current_limit := upd st.output_current_limit index value,
          current_limit_valid := upd st.current_limit_valid index true }, evs)

/-- Embeds `hmp2020._set_output_enabled` (hmp2020.py lines 149-167): channel
select, `OUTP:SEL` / `OUTP` writes unless simulating (`time.sleep(0.1)` has
no observable effect here), cache update, then the cascade: the
`output_enabled` validity flag is cleared on every channel and re-set on the
written channel only. -/
def hmp_set_output_enabled (st : HmpState) (i : ℕ) (value : Bool) :
    DriverRes HmpState Unit :=
  match get_index st.output_count i with
  | .error e => (.error e, st, [])
  | .ok index =>
    let evs := if st.simulate then [] else
      (if st.output_count > 1 then
        baseWrite st.simulate (.instrumentNselect (index + 1)) else [])
      ++ (if getBoolStr value == "1" then
            baseWrite st.simulate (.outpSel (index + 1)) ++ baseWrite st.simulate (.outp true)
          else
            baseWrite st.simulate (.outpSel (index + 1)) ++ baseWrite st.simulate (.outp false))
    (.ok (), { st with
      output_enabled := upd st.output_enabled index value,
      enabled_valid := upd (clearFlags st.output_count st.enabled_valid) index true }, evs)

/-!
## Rigol DG1022Z driver state and operations (rigolDG1022Z.py)
-/

/-- Valid values of `fgen.SampleClockSource` (base library, not under src/).
Modelled from the spec's reference-clock enum: the getter maps the device
reply EXT to external and everything else to internal. -/
def SampleClockSource : List String := ["internal", "external"]

/-- Hardcoded high-impedance sentinel substituted for any string argument in
`_set_output_impedance` (rigolDG1022Z.py line 233). -/
def hardcodedHighImpedance : ℤ := 98999999999999993426744560981400092672

/-- Argument of `_set_output_impedance`: `isinstance(value, str)` separates
strings from numbers. Numeric arguments are modelled as ℤ (the impedance
cache holds Python ints: the getter stores `int(float(resp))`). -/
inductive ImpedanceArg
  | str (s : String)
  | int (n : ℤ)
deriving DecidableEq, Repr

/-- Mutable state of one rigolDG1022Z driver instance (same cache and
validity-flag modelling as `HmpState`). -/
structure RigolState where
  simulate : Bool
  output_count : ℕ
  arbitrary_waveform_quantum : ℕ
  arbitrary_waveform_n : ℕ
  catalog_names : List String
  output_enabled : ℕ → Bool
  enabled_valid : ℕ → Bool
  output_impedance : ℕ → ℤ
  frequency : ℕ → ℚ
  frequency_valid : ℕ → Bool
  refclock : ℕ → String
  refclock_valid : ℕ → Bool
  duty_cycle : ℕ → ℤ
  duty_cycle_valid : ℕ → Bool

/-- Typed oracle for rigolDG1022Z device replies. -/
structure RigolDevice where
  /-- Reply string of `:OUTP%d:state?` for channel n (1-based). -/
  outpStateReply : ℕ → String
  /-- Reply of `SOUR%d:FREQuency?`, as parsed by `float(...)`. -/
  freqReply : ℕ → ℚ
  /-- Waveform names parsed from the `:MEMory:STATe:CATalog?` reply
  (`_load_catalog` splits the raw ASCII into (name, type, size) triples and
  keeps the names; that parse is abstracted to its result). -/
  catalogNames : List String

/-- Embeds `rigolDG1022Z._load_catalog` (lines 184-194): resets the catalog
lists, and unless simulating asks the instrument and stores the parsed
names. -/
def rigol_load_catalog (d : RigolDevice) (st : RigolState) :
    RigolState × List Event :=
  if st.simulate then
    ({ st with catalog_names := [] }, [])
  else
    ({ st with catalog_names := d.catalogNames },
     baseAsk st.simulate .memStateCatalogQuery)

/-- Embeds `rigolDG1022Z._get_output_enabled` (lines 206-212). This getter
never consults the validity flag: unless simulating it always asks the
instrument, overwrites the cache with the parsed reply and re-validates. -/
def rigol_get_output_enabled (d : RigolDevice) (st : RigolState) (i : ℕ) :
    DriverRes RigolState Bool :=
  match get_index st.output_count i with
  | .error e => (.error e, st, [])
  | .ok index =>
    if !st.simulate then
      let resp := d.outpStateReply (index + 1) == "ON"
      let st' := { st with output_enabled := upd st.output_enabled index resp,
                           enabled_valid := upd st.enabled_valid index true }
      (.ok (st'.output_enabled index), st',
       baseAsk st.simulate (.outpChanStateQuery (index + 1)))
    else
      (.ok (st.output_enabled index), st, [])

/-- Embeds `rigolDG1022Z._set_output_enabled` (lines 214-223). Only the
written channel's validity flag is set; sibling channels' flags are left
untouched. -/
def rigol_set_output_enabled (st : RigolState) (i : ℕ) (value : Bool) :
    DriverRes RigolState Unit :=
  match get_index st.output_count i with
  | .error e => (.error e, st, [])
  | .ok index =>
    let evs := if st.simulate then [] else
      (if value then baseWrite st.simulate (.outpChanState (index + 1) true)
       else baseWrite st.simulate (.outpChanState (index + 1) false))
    (.ok (), { st with output_enabled := upd st.output_enabled index value,
                       enabled_valid := upd st.enabled_valid index true }, evs)

/-- Embeds `rigolDG1022Z._set_output_impedance` (lines 231-236): a string
argument is replaced by the hardcoded high-impedance sentinel before the
channel index is resolved; the write is not guarded by the driver's simulate
check (the base `_write` still skips physical I/O while simulating); the
validity flag is not touched. -/
def rigol_set_output_impedance (st : RigolState) (i : ℕ) (value : ImpedanceArg) :
    DriverRes RigolState Unit :=
  let v : ℤ := match value with
    | .str _ => hardcodedHighImpedance
    | .int n => n
  match get_index st.output_count i with
  | .error e => (.error e, st, [])
  | .ok index =>
    (.ok (), { st with output_impedance := upd st.output_impedance index v },
     baseWrite st.simulate (.outpImpedance (index + 1) v))

/-- Embeds `rigolDG1022Z._set_output_reference_clock_source` (lines 261-270):
enum validation, write unless simulating, cache update, then the cascade
clearing the flag on all channels before re-validating the written one. -/
def rigol_set_output_reference_clock_source (st : RigolState) (i : ℕ)
    (value : String) : DriverRes RigolState Unit :=
  match get_index st.output_count i with
  | .error e => (.error e, st, [])
  | .ok index =>
    if value ∉ SampleClockSource then (.error .valueNotSupported, st, [])
    else
      let evs := if st.simulate then [] else baseWrite st.simulate (.roscSource value)
      (.ok (), { st with
        refclock := upd st.refclock index value,
        refclock_valid :=
          upd (clearFlags st.output_count st.refclock_valid) index true }, evs)

/-- Embeds `rigolDG1022Z._get_output_standard_waveform_frequency`
(lines 345-351). -/
def rigol_get_output_standard_waveform_frequency (d : RigolDevice)
    (st : RigolState) (i : ℕ) : DriverRes RigolState ℚ :=
  match get_index st.output_count i with
  | .error e => (.error e, st, [])
  | .ok index =>
    if !st.simulate && !(st.frequency_valid index) then
      let st' := { st with
        frequency := upd st.frequency index (d.freqReply (index + 1)),
        frequency_valid := upd st.frequency_valid index true }
      (.ok (st'.frequency index), st',
       baseAsk st.simulate (.sourFreqQuery (index + 1)))
    else
      (.ok (st.frequency index), st, [])

/-- Embeds `rigolDG1022Z._set_output_standard_waveform_frequency`
(lines 353-361): write unless simulating, cache update, then the cascade
clearing the flag on all channels before re-validating the written one. -/
def rigol_set_output_standard_waveform_frequency (st : RigolState) (i : ℕ)
    (value : ℚ) : DriverRes RigolState Unit :=
  match get_index st.output_count i with
  | .error e => (.error e, st, [])
  | .ok index =>
    let evs := if st.simulate then [] else
      baseWrite st.simulate (.sourFreq (index + 1) value)
    (.ok (), { st with
      frequency := upd st.frequency index value,
      frequency_valid :=
        upd (clearFlags st.output_count st.frequency_valid) index true }, evs)

/-- Embeds `rigolDG1022Z._set_output_standard_waveform_duty_cycle_high`
(lines 319-326): the wire write is the hardcoded command
`":SOUR1:FUNC:PULS:DCYC 45 "` — the per-channel, per-value write on line 323
is commented out in the source — while the cache stores `int(value)` at the
requested channel and validates its flag. -/
def rigol_set_output_standard_waveform_duty_cycle_high (st : RigolState)
    (i : ℕ) (value : ℚ) : DriverRes RigolState Unit :=
  match get_index st.output_count i with
  | .error e => (.error e, st, [])
  | .ok index =>
    let v := pyInt value
    let evs := if st.simulate then [] else baseWrite st.simulate (.dcyc 1 45)
    (.ok (), { st with duty_cycle := upd st.duty_cycle index v,
                       duty_cycle_valid := upd st.duty_cycle_valid index true }, evs)

/-!
## The arbitrary-waveform upload pipeline
-/

/-- Python `"%04d" % n`: decimal rendering zero-padded to at least 4 digits. -/
def pad4 (n : ℕ) : String :=
  let s := toString n
  if s.length < 4 then String.mk (List.replicate (4 - s.length) '0') ++ s else s

/-- Handle candidate `"w%04d.wfm" % n` (rigolDG1022Z.py line 497). -/
def formatHandle (n : ℕ) : String := "w" ++ pad4 n ++ ".wfm"

/-- The `while not have_handle` probe loop of `_arbitrary_waveform_create`
(lines 494-498): starting from counter `n`, increment and test the formatted
name against the catalog until an absent name is found; returns the final
counter. The source loop is unbounded; the fuel `cat.length + 1` passed by
`rigol_arbitrary_waveform_create` always suffices, because the probed names
are pairwise distinct zero-padded decimals while the catalog holds only
`cat.length` entries, so the fuel-exhausted fallback is never reached. -/
def nextFreeN (n : ℕ) (cat : List String) : ℕ → ℕ
  | 0 => n + 1
  | fuel + 1 =>
    if formatHandle (n + 1) ∈ cat then nextFreeN (n + 1) cat fuel else n + 1

/-- The argument shapes `_arbitrary_waveform_create` dispatches on
(rigolDG1022Z.py lines 467-482). All element values are floats (ℚ) in this
model, so a nonempty Python list always passes `type(data[0]) == float`.
The final else branch calls `ivi.get_sig(data)` (base library, not under
src/), modelled from the spec's step 1 as an explicit (x, y) signal pair. -/
inductive PyData
  | pyList (l : List ℚ)
  | ndarray1d (l : List ℚ)
  /-- 2-D array of shape (1, n): `y = data[0]` -/
  | ndarray2dRow (l : List ℚ)
  /-- 2-D array of shape (n, 1): `y = data[:,0]` -/
  | ndarray2dCol (l : List ℚ)
  /-- Any other argument: `x, y = ivi.get_sig(data)` -/
  | sigPair (x y : List ℚ)

/-- Consecutive differences, `numpy.diff`. -/
def diffs : List ℚ → List ℚ
  | a :: b :: rest => (b - a) :: diffs (b :: rest)
  | _ => []

/-- Modelled from the spec: `ivi.rms` (base library, not under src/), the
"root-mean-square of consecutive x-differences" describing playback rate.
Represented by its square — the mean of the squared differences — because
the square root leaves ℚ; no claim depends on this numeric value. On an
empty difference list the source computes numpy's mean of an empty array
(nan, with a warning); here ℚ division by zero yields 0. -/
def meanSquareDiffs (x : List ℚ) : ℚ :=
  ((diffs x).map (fun d => d ^ 2)).sum / ((diffs x).length : ℚ)

/-- The fixed header command sequence of `_arbitrary_waveform_create`
(lines 499-508), in source order; `:wfmpre:ymult` carries `2/(1<<12)`. -/
def wfmHeaderCmds (handle : String) (xincrSq : ℚ) : List Cmd :=
  [.dataDestination handle, .wfmpreBitNr 12, .wfmpreBnFmt, .wfmpreBytNr 2,
   .wfmpreBytOr, .wfmpreEncdg, .wfmprePtFmt, .wfmpreYzero 0,
   .wfmpreYmult (2 / (2 ^ 12 : ℚ)), .wfmpreXincrSq xincrSq]

/-- The input dispatch of `_arbitrary_waveform_create` (lines 467-485):
either raises (empty Python list: IndexError at `data[0]`) or yields the
optional explicit x-axis and the sample list y. -/
def pyDataXY (data : PyData) : Except IviError (Option (List ℚ) × List ℚ) :=
  match data with
  | .pyList [] => .error .indexError
  | .pyList l => .ok (none, l)
  | .ndarray1d l => .ok (none, l)
  | .ndarray2dRow l => .ok (none, l)
  | .ndarray2dCol l => .ok (none, l)
  | .sigPair x y => .ok (some x, y)

/-- Embeds `rigolDG1022Z._arbitrary_waveform_create` (lines 466-527): shape
dispatch (an empty Python list raises IndexError at `data[0]`), default
x-axis `arange(0, len(y)) / 10e6`, quantum-multiple length validation, xincr
computation, catalog fetch, handle probing, the ten header writes (each one
a `self._write` through the base transport, which skips physical I/O while
simulating), per-sample quantization, and the binary block write. -/
def rigol_arbitrary_waveform_create (d : RigolDevice) (st : RigolState)
    (data : PyData) : DriverRes RigolState String :=
  match pyDataXY data with
  | .error e => (.error e, st, [])
  | .ok xy =>
    let y := xy.2
    let x := match xy.1 with
      | none => (List.range y.length).map (fun i => (i : ℚ) / 10000000)
      | some xs => xs
    if y.length % st.arbitrary_waveform_quantum ≠ 0 then
      (.error .valueNotSupported, st, [])
    else
      let xincrSq := meanSquareDiffs x
      let stEv := rigol_load_catalog d st
      let st1 := stEv.1
      let n := nextFreeN st1.arbitrary_waveform_n st1.catalog_names
        (st1.catalog_names.length + 1)
      let handle := formatHandle n
      let st2 := { st1 with arbitrary_waveform_n := n }
      let evHdr := ((wfmHeaderCmds handle xincrSq).map (baseWrite st.simulate)).flatten
      let evBlk := baseBlockWrite st.simulate ":curve " (rawData y)
      (.ok handle, st2, stEv.2 ++ evHdr ++ evBlk)

/-!
## Concrete states and devices for the closed theorems
-/

/-- A fresh hmp2020 driver state as left by `__init__` / `_init_outputs`,
with the given simulate flag (numeric caches zero until first read). -/
def hmpInit (simulate : Bool) : HmpState :=
  { simulate := simulate
    output_count := 2
    output_spec := hmp2020_output_spec
    output_voltage_level := fun _ => 0
    output_current_limit := fun _ => 0
    output_enabled := fun _ => false
    voltage_level_valid := fun _ => false
    current_limit_valid := fun _ => false
    enabled_valid := fun _ => false }

/-- A fresh rigolDG1022Z driver state as left by `__init__` /
`_init_outputs`: two channels, quantum 8, waveform counter 0, empty catalog,
outputs disabled. -/
def rigolInit (simulate : Bool) : RigolState :=
  { simulate := simulate
    output_count := 2
    arbitrary_waveform_quantum := 8
    arbitrary_waveform_n := 0
    catalog_names := []
    output_enabled := fun _ => false
    enabled_valid := fun _ => false
    output_impedance := fun _ => 0
    frequency := fun _ => 0
    frequency_valid := fun _ => false
    refclock := fun _ => "internal"
    refclock_valid := fun _ => false
    duty_cycle := fun _ => 0
    duty_cycle_valid := fun _ => false }

/-- Concrete rigol device: every output reports OFF, no stored waveforms. -/
def rigolDevEmpty : RigolDevice :=
  { outpStateReply := fun _ => "OFF", freqReply := fun _ => 0, catalogNames := [] }

/-- Concrete rigol device with waveforms w0001.wfm and w0002.wfm stored. -/
def rigolDevCatalog12 : RigolDevice :=
  { outpStateReply := fun _ => "OFF", freqReply := fun _ => 0,
    catalogNames := ["w0001.wfm", "w0002.wfm"] }

/-- Concrete hmp2020 device replying 0 V / 0 A everywhere. -/
def hmpDevZero : HmpDevice := { voltReply := fun _ => 0, currReply := fun _ => 0 }

/-- A rigol state in which the output-enabled cache of every channel is
currently valid (as after both channels have been written). -/
def rigolBothValid : RigolState :=
  { rigolInit true with enabled_valid := fun _ => true }

/-- An hmp2020-shaped state whose range entry has negative maxima,
exercising the inverted-range branches of the setters. -/
def hmpNegSpec : HmpState :=
  { hmpInit true with
    output_spec := [{ ovp_max := 0, voltage_max := -10, current_max := -5 }] }

/-!
## Lemmas and claim theorems
-/

lemma clipSample_of_one_lt {f : ℚ} (hf : 1 < f) : clipSample f = 1 := by
  simp only [clipSample, if_pos hf]
  norm_num

lemma clipSample_of_lt_neg_one {f : ℚ} (hf : f < -1) : clipSample f = -1 := by
  have hle : ¬ (f > 1) := by linarith
  simp only [clipSample, if_neg hle, if_pos hf]

lemma clipSample_of_mem {f : ℚ} (h1 : -1 ≤ f) (h2 : f ≤ 1) : clipSample f = f := by
  simp only [clipSample]
  rw [if_neg (by linarith : ¬ f > 1), if_neg (by linarith : ¬ f < -1)]

lemma quantCode_of_mem {f : ℚ} (h1 : -1 ≤ f) (h2 : f ≤ 1) :
    (quantCode f : ℤ) = ⌊(f + 1) / 2 * ((2 ^ 12 : ℚ) - 2) + 1 / 2⌋ := by
  have hnn : (0 : ℚ) ≤ (f + 1) / 2 * ((2 ^ 12 : ℚ) - 2) + 1 / 2 := by
    have : (0 : ℚ) ≤ (f + 1) / 2 := by linarith
    nlinarith
  have hfl0 : (0 : ℤ) ≤ ⌊(f + 1) / 2 * ((2 ^ 12 : ℚ) - 2) + 1 / 2⌋ :=
    Int.floor_nonneg.mpr hnn
  have hub : (f + 1) / 2 * ((2 ^ 12 : ℚ) - 2) + 1 / 2 < 2 ^ 20 := by nlinarith
  have hflub : ⌊(f + 1) / 2 * ((2 ^ 12 : ℚ) - 2) + 1 / 2⌋ < (2 ^ 20 : ℤ) := by
    by_contra hcon
    push_neg at hcon
    have hle := Int.floor_le ((f + 1) / 2 * ((2 ^ 12 : ℚ) - 2) + 1 / 2)
    have hcast : ((2 : ℚ) ^ 20) ≤ ((⌊(f + 1) / 2 * ((2 ^ 12 : ℚ) - 2) + 1 / 2⌋ : ℤ) : ℚ) := by
      exact_mod_cast hcon
    linarith
  simp only [quantCode, clipSample_of_mem h1 h2, pyInt, if_pos hnn]
  rw [Int.emod_eq_of_lt hfl0 hflub]
  exact Int.toNat_of_nonneg hfl0

lemma quantCode_one : quantCode 1 = 4094 := by
  have h := quantCode_of_mem (f := 1) (by norm_num) le_rfl
  have hfl : ⌊((1 : ℚ) + 1) / 2 * ((2 ^ 12 : ℚ) - 2) + 1 / 2⌋ = (4094 : ℤ) :=
    Int.floor_eq_iff.mpr (by norm_num)
  omega

lemma quantCode_neg_one : quantCode (-1) = 0 := by
  have h := quantCode_of_mem (f := -1) le_rfl (by norm_num)
  have hfl : ⌊((-1 : ℚ) + 1) / 2 * ((2 ^ 12 : ℚ) - 2) + 1 / 2⌋ = (0 : ℤ) :=
    Int.floor_eq_iff.mpr (by norm_num)
  omega

lemma quantCode_zero : quantCode 0 = 2047 := by
  have h := quantCode_of_mem (f := 0) (by norm_num) (by norm_num)
  have hfl : ⌊((0 : ℚ) + 1) / 2 * ((2 ^ 12 : ℚ) - 2) + 1 / 2⌋ = (2047 : ℤ) :=
    Int.floor_eq_iff.mpr (by norm_num)
  omega

@[simp] lemma upd_same {α : Type} (f : ℕ → α) (i : ℕ) (a : α) : upd f i a i = a := by
  simp [upd]

@[simp] lemma upd_other {α : Type} (f : ℕ → α) (i j : ℕ) (a : α) (h : j ≠ i) :
    upd f i a j = f j := by
  simp [upd, h]

/-- C3: each sample is clipped to [-1,1], rescaled by `(f+1)/2`, mapped to
`round(f_scaled * (2^12 - 2))` (for in-range inputs the truncating
`int(x + 0.5)` equals the floor-based round and the 20-bit mask is a no-op),
and packed big-endian in 2 bytes; inputs 1, -1, 0 give codes 4094, 0, 2047,
and out-of-range inputs saturate to the code of the nearest bound. -/
theorem arbitrary_waveform_quantization_correct :
    quantCode 1 = 4094 ∧ quantCode (-1) = 0 ∧ quantCode 0 = 2047 ∧
    (∀ f : ℚ, 1 < f → quantCode f = quantCode 1) ∧
    (∀ f : ℚ, f < -1 → quantCode f = quantCode (-1)) ∧
    (∀ f : ℚ, -1 ≤ f → f ≤ 1 →
      (quantCode f : ℤ) = ⌊(f + 1) / 2 * ((2 ^ 12 : ℚ) - 2) + 1 / 2⌋) ∧
    (∀ f : ℚ, quantSample f = pack2be (quantCode f)) := by
  refine ⟨quantCode_one, quantCode_neg_one, quantCode_zero, ?_, ?_,
    fun f h1 h2 => quantCode_of_mem h1 h2, fun f => rfl⟩
  · intro f hf
    unfold quantCode
    rw [clipSample_of_one_lt hf, clipSample_of_mem (by norm_num) le_rfl]
  · intro f hf
    unfold quantCode
    rw [clipSample_of_lt_neg_one hf, clipSample_of_mem le_rfl (by norm_num)]

/-- Witness for the hypothesis-bearing conjuncts of the C3 theorem:
saturation at 2 and -2, and the round formula at 1/2. -/
theorem arbitrary_waveform_quantization_correct_witness :
    quantCode 2 = quantCode 1 ∧ quantCode (-2) = quantCode (-1) ∧
    (quantCode (1 / 2) : ℤ) = ⌊((1 : ℚ) / 2 + 1) / 2 * ((2 ^ 12 : ℚ) - 2) + 1 / 2⌋ :=
  ⟨arbitrary_waveform_quantization_correct.2.2.2.1 2 (by norm_num),
   arbitrary_waveform_quantization_correct.2.2.2.2.1 (-2) (by norm_num),
   arbitrary_waveform_quantization_correct.2.2.2.2.2.1 (1 / 2) (by norm_num) (by norm_num)⟩

/-- C1 (code bug evidence): after a non-simulated set, the HMP2020 voltage
and current getters return the written value from the cache with no device
I/O; but the DG1022Z output-enabled getter — although the setter validated
the cache flag — still performs a device read and returns the device reply
(here OFF, i.e. false) instead of the written value true. -/
theorem set_then_get_cache_hit_and_dg1022z_divergence :
    (hmp_get_output_voltage_level hmpDevZero
        (hmp_set_output_voltage_level (hmpInit false) 0 10).2.1 0) =
      (.ok 10, (hmp_set_output_voltage_level (hmpInit false) 0 10).2.1, []) ∧
    (hmp_get_output_current_limit hmpDevZero
        (hmp_set_output_current_limit (hmpInit false) 0 3).2.1 0) =
      (.ok 3, (hmp_set_output_current_limit (hmpInit false) 0 3).2.1, []) ∧
    ((rigol_set_output_enabled (rigolInit false) 0 true).2.1).enabled_valid 0 = true ∧
    (rigol_get_output_enabled rigolDevEmpty
        (rigol_set_output_enabled (rigolInit false) 0 true).2.1 0).2.2 =
      [Event.ask (.outpChanStateQuery 1)] ∧
    (rigol_get_output_enabled rigolDevEmpty
        (rigol_set_output_enabled (rigolInit false) 0 true).2.1 0).1 = .ok false :=
  ⟨rfl, rfl, rfl, rfl, rfl⟩

/-- C2 counterexample: on the DG1022Z, `_set_output_enabled` on channel 0
succeeds but leaves the sibling channel's output-enabled validity flag set —
the claimed all-channel invalidation does not happen for this setter. -/
theorem set_output_enabled_leaves_sibling_flag_valid :
    (rigol_set_output_enabled rigolBothValid 0 false).1 = .ok () ∧
    ((rigol_set_output_enabled rigolBothValid 0 false).2.1).enabled_valid 1 = true :=
  ⟨rfl, rfl⟩

/-- C2 (amended): the invalidation cascade — clear the attribute's validity
flag on every other channel, re-validate only the written channel — holds
for the DG1022Z standard-waveform-frequency and reference-clock-source
setters and for the HMP2020 output-enabled setter; after such a set, a
non-simulated get on a sibling channel re-fetches from the device. The
DG1022Z output-enabled setter instead validates only its own channel and
leaves sibling flags unchanged. -/
theorem cascading_setters_invalidate_all_other_channels :
    (∀ (st : RigolState) (c c' : ℕ) (v : ℚ),
      c < st.output_count → c' < st.output_count → c' ≠ c →
      ((rigol_set_output_standard_waveform_frequency st c v).2.1).frequency_valid c' = false ∧
      ((rigol_set_output_standard_waveform_frequency st c v).2.1).frequency_valid c = true) ∧
    (∀ (st : RigolState) (c c' : ℕ) (v : String), v ∈ SampleClockSource →
      c < st.output_count → c' < st.output_count → c' ≠ c →
      ((rigol_set_output_reference_clock_source st c v).2.1).refclock_valid c' = false ∧
      ((rigol_set_output_reference_clock_source st c v).2.1).refclock_valid c = true) ∧
    (∀ (st : HmpState) (c c' : ℕ) (v : Bool),
      c < st.output_count → c' < st.output_count → c' ≠ c →
      ((hmp_set_output_enabled st c v).2.1).enabled_valid c' = false ∧
      ((hmp_set_output_enabled st c v).2.1).enabled_valid c = true) ∧
    (∀ (d : RigolDevice) (st : RigolState) (c c' : ℕ) (v : ℚ),
      st.simulate = false → c < st.output_count → c' < st.output_count → c' ≠ c →
      (rigol_get_output_standard_waveform_frequency d
        ((rigol_set_output_standard_waveform_frequency st c v).2.1) c').2.2 =
        [Event.ask (.sourFreqQuery (c' + 1))]) ∧
    (∀ (st : RigolState) (c c' : ℕ) (v : Bool), c < st.output_count → c' ≠ c →
      ((rigol_set_output_enabled st c v).2.1).enabled_valid c = true ∧
      ((rigol_set_output_enabled st c v).2.1).enabled_valid c' = st.enabled_valid c') := by
  refine ⟨?_, ?_, ?_, ?_, ?_⟩
  · intro st c c' v hc hc' hne
    constructor <;>
      simp [rigol_set_output_standard_waveform_frequency, get_index, hc,
        upd, clearFlags, hne, hc']
  · intro st c c' v hv hc hc' hne
    have hv' : ¬ v ∉ SampleClockSource := by simpa using hv
    constructor <;>
      simp [rigol_set_output_reference_clock_source, get_index, hc, hv',
        upd, clearFlags, hne, hc']
  · intro st c c' v hc hc' hne
    constructor <;>
      simp [hmp_set_output_enabled, get_index, hc, upd, clearFlags, hne, hc']
  · intro d st c c' v hsim hc hc' hne
    have hflag :
        ((rigol_set_output_standard_waveform_frequency st c v).2.1).frequency_valid c' = false := by
      simp [rigol_set_output_standard_waveform_frequency, get_index, hc,
        upd, clearFlags, hne, hc']
    have hcount :
        ((rigol_set_output_standard_waveform_frequency st c v).2.1).output_count =
          st.output_count := by
      simp [rigol_set_output_standard_waveform_frequency, get_index, hc]
    have hsim' :
        ((rigol_set_output_standard_waveform_frequency st c v).2.1).simulate = false := by
      simp [rigol_set_output_standard_waveform_frequency, get_index, hc, hsim]
    simp [rigol_get_output_standard_waveform_frequency, get_index, hcount, hc',
      hflag, hsim', baseAsk]
  · intro st c c' v hc hne
    constructor <;> simp [rigol_set_output_enabled, get_index, hc, upd, hne]

/-- Witness for the C2 amended theorem: concrete instantiation on a fresh
two-channel instrument, channel 0 written, channel 1 observed. -/
theorem cascading_setters_invalidate_all_other_channels_witness :
    ((rigol_set_output_standard_waveform_frequency (rigolInit true) 0 1000).2.1).frequency_valid 1
      = false ∧
    ((rigol_set_output_reference_clock_source (rigolInit true) 0 "external").2.1).refclock_valid 1
      = false ∧
    ((hmp_set_output_enabled (hmpInit true) 0 true).2.1).enabled_valid 1 = false ∧
    (rigol_get_output_standard_waveform_frequency rigolDevEmpty
        ((rigol_set_output_standard_waveform_frequency (rigolInit false) 0 1000).2.1) 1).2.2 =
      [Event.ask (.sourFreqQuery 2)] ∧
    ((rigol_set_output_enabled (rigolInit true) 0 true).2.1).enabled_valid 1 =
      (rigolInit true).enabled_valid 1 :=
  ⟨(cascading_setters_invalidate_all_other_channels.1 (rigolInit true) 0 1 1000
      (by decide) (by decide) (by decide)).1,
   (cascading_setters_invalidate_all_other_channels.2.1 (rigolInit true) 0 1 "external"
      (by decide) (by decide) (by decide) (by decide)).1,
   (cascading_setters_invalidate_all_other_channels.2.2.1 (hmpInit true) 0 1 true
      (by decide) (by decide) (by decide)).1,
   cascading_setters_invalidate_all_other_channels.2.2.2.1 rigolDevEmpty
      (rigolInit false) 0 1 1000 rfl (by decide) (by decide) (by decide),
   (cascading_setters_invalidate_all_other_channels.2.2.2.2 (rigolInit true) 0 1 true
      (by decide) (by decide)).2⟩

/-- C4: a sample sequence whose length is not a multiple of the waveform
quantum (8 on the DG1022Z) makes `_arbitrary_waveform_create` raise
ValueNotSupportedException with no I/O and no state change — for 1-D array
input and for (nonempty) Python-list input alike — while a 16-sample
sequence passes the validation and the call returns a handle. -/
theorem waveform_quantum_length_validation :
    (∀ (st : RigolState) (d : RigolDevice) (l : List ℚ),
      st.arbitrary_waveform_quantum = 8 → l.length % 8 ≠ 0 →
      rigol_arbitrary_waveform_create d st (.ndarray1d l) =
        (.error .valueNotSupported, st, [])) ∧
    (∀ (st : RigolState) (d : RigolDevice) (l : List ℚ), l ≠ [] →
      st.arbitrary_waveform_quantum = 8 → l.length % 8 ≠ 0 →
      rigol_arbitrary_waveform_create d st (.pyList l) =
        (.error .valueNotSupported, st, [])) ∧
    (∃ h, (rigol_arbitrary_waveform_create rigolDevEmpty (rigolInit false)
        (.ndarray1d (List.replicate 16 0))).1 = .ok h) := by
  refine ⟨?_, ?_, ⟨_, rfl⟩⟩
  · intro st d l hq hl
    simp [rigol_arbitrary_waveform_create, pyDataXY, hq, hl]
  · intro st d l hne hq hl
    match l, hne with
    | a :: t, _ =>
      simp only [rigol_arbitrary_waveform_create, pyDataXY, hq]
      rw [if_pos (by simpa [hq] using hl)]

/-- Witness for the C4 theorem: length 10 is rejected on both input shapes
at a concrete fresh instrument. -/
theorem waveform_quantum_length_validation_witness :
    rigol_arbitrary_waveform_create rigolDevEmpty (rigolInit true)
        (.ndarray1d (List.replicate 10 0)) =
      (.error .valueNotSupported, rigolInit true, []) ∧
    rigol_arbitrary_waveform_create rigolDevEmpty (rigolInit true)
        (.pyList (List.replicate 10 0)) =
      (.error .valueNotSupported, rigolInit true, []) :=
  ⟨waveform_quantum_length_validation.1 (rigolInit true) rigolDevEmpty
      (List.replicate 10 0) rfl (by simp),
   waveform_quantum_length_validation.2.1 (rigolInit true) rigolDevEmpty
      (List.replicate 10 0) (by simp) rfl (by simp)⟩

/-- C8 counterexample: a zero-length 1-D array input is NOT rejected by the
quantum-multiple validation (0 is a multiple of 8): the call returns a
handle and the header commands are emitted. -/
theorem zero_length_passes_quantum_check :
    (∃ h, (rigol_arbitrary_waveform_create rigolDevEmpty (rigolInit false)
        (.ndarray1d [])).1 = .ok h) ∧
    Event.write (.wfmpreBitNr 12) ∈
      (rigol_arbitrary_waveform_create rigolDevEmpty (rigolInit false)
        (.ndarray1d [])).2.2 :=
  ⟨⟨_, rfl⟩, by decide⟩

/-- C8 (amended): a zero-length Python-list input fails earlier, with an
IndexError at the `type(data[0])` inspection, before the quantum check and
before any command; a zero-length 1-D array passes the quantum validation
(0 is a multiple of 8) and proceeds to emit the header commands and an
empty curve block, returning a handle. -/
theorem zero_length_behavior :
    rigol_arbitrary_waveform_create rigolDevEmpty (rigolInit false) (.pyList []) =
      (.error .indexError, rigolInit false, []) ∧
    (∃ h, (rigol_arbitrary_waveform_create rigolDevEmpty (rigolInit false)
        (.ndarray1d [])).1 = .ok h) ∧
    Event.write (.wfmpreBitNr 12) ∈
      (rigol_arbitrary_waveform_create rigolDevEmpty (rigolInit false)
        (.ndarray1d [])).2.2 ∧
    Event.blockWrite ":curve " [] ∈
      (rigol_arbitrary_waveform_create rigolDevEmpty (rigolInit false)
        (.ndarray1d [])).2.2 :=
  ⟨rfl, ⟨_, rfl⟩, by decide, by decide⟩

/-- C9 (code bug evidence): the duty-cycle setter called for channel index 1
(wire channel 2) with value 60 writes the hardcoded command
`:SOUR1:FUNC:PULS:DCYC 45` — channel 1, value 45 — and not the
channel-2/value-60 command the contract requires, while the cache does store
60 at the requested channel. -/
theorem duty_cycle_setter_writes_hardcoded_command :
    (rigol_set_output_standard_waveform_duty_cycle_high (rigolInit false) 1 60).2.2 =
      [Event.write (.dcyc 1 45)] ∧
    Event.write (.dcyc 2 60) ∉
      (rigol_set_output_standard_waveform_duty_cycle_high (rigolInit false) 1 60).2.2 ∧
    ((rigol_set_output_standard_waveform_duty_cycle_high (rigolInit false) 1 60).2.1).duty_cycle 1
      = 60 ∧
    ((rigol_set_output_standard_waveform_duty_cycle_high (rigolInit false) 1 60).2.1).duty_cycle_valid 1
      = true :=
  ⟨rfl, by decide, rfl, rfl⟩

/-- C10: `_set_output_impedance` replaces any string argument by the
hardcoded high-impedance sentinel 98999999999999993426744560981400092672,
which is both interpolated into the wire command for the requested channel
and stored as that channel's cached impedance; integer arguments are written
and stored verbatim. (The write goes through the base transport, so it is
emitted exactly when not simulating.) -/
theorem output_impedance_string_sentinel :
    hardcodedHighImpedance = 98999999999999993426744560981400092672 ∧
    (∀ (st : RigolState) (i : ℕ) (s : String), i < st.output_count →
      rigol_set_output_impedance st i (.str s) =
        (.ok (), { st with output_impedance := upd st.output_impedance i hardcodedHighImpedance },
         baseWrite st.simulate (.outpImpedance (i + 1) hardcodedHighImpedance))) ∧
    (∀ (st : RigolState) (i : ℕ) (n : ℤ), i < st.output_count →
      rigol_set_output_impedance st i (.int n) =
        (.ok (), { st with output_impedance := upd st.output_impedance i n },
         baseWrite st.simulate (.outpImpedance (i + 1) n))) := by
  refine ⟨rfl, ?_, ?_⟩ <;>
    · intro st i a hi
      simp [rigol_set_output_impedance, get_index, hi]

/-- Witness for the C10 theorem at a concrete state and channel: string
argument stored as the sentinel, integer argument stored verbatim. -/
theorem output_impedance_string_sentinel_witness :
    rigol_set_output_impedance (rigolInit false) 0 (.str "highZ") =
      (.ok (), { rigolInit false with output_impedance := upd (rigolInit false).output_impedance 0 hardcodedHighImpedance },
       baseWrite false (.outpImpedance 1 hardcodedHighImpedance)) ∧
    rigol_set_output_impedance (rigolInit false) 0 (.int 50) =
      (.ok (), { rigolInit false with output_impedance := upd (rigolInit false).output_impedance 0 50 },
       baseWrite false (.outpImpedance 1 50)) :=
  ⟨output_impedance_string_sentinel.2.1 (rigolInit false) 0 "highZ" (by decide),
   output_impedance_string_sentinel.2.2 (rigolInit false) 0 50 (by decide)⟩

/-- C5 counterexample: for a channel whose bound is current_max = -5, the
current-limit setter rejects -2 with OutOfRange even though -2 lies in
[-5, 0] — the claimed inverted acceptance range does not exist in this
setter. -/
theorem negative_current_max_rejects_in_range_value :
    hmp_set_output_current_limit hmpNegSpec 0 (-2) =
      (.error .outOfRange, hmpNegSpec, []) ∧
    hmpNegSpec.output_spec[0]? =
      some { ovp_max := 0, voltage_max := -10, current_max := -5 } ∧
    ((-5 : ℚ) ≤ -2 ∧ (-2 : ℚ) ≤ 0) :=
  ⟨rfl, rfl, by norm_num⟩

/-- C5 (amended): the voltage setter accepts exactly [0, M] when M ≥ 0 and
exactly [M, 0] when M < 0; the current setter accepts exactly [0, M] when
M ≥ 0 but rejects every value when M < 0 (it has no inverted-range branch);
in both setters every rejected value raises OutOfRange with no command
written and the state — cached value and validity flag included —
unchanged. -/
theorem range_validation_exact :
    (∀ (st : HmpState) (i : ℕ) (s : OutputSpec) (v : ℚ),
      i < st.output_count → st.output_spec[i]? = some s →
      (0 ≤ s.voltage_max →
        ((0 ≤ v ∧ v ≤ s.voltage_max) ↔ (hmp_set_output_voltage_level st i v).1 = .ok ())) ∧
      (s.voltage_max < 0 →
        ((s.voltage_max ≤ v ∧ v ≤ 0) ↔ (hmp_set_output_voltage_level st i v).1 = .ok ())) ∧
      ((hmp_set_output_voltage_level st i v).1 ≠ .ok () →
        hmp_set_output_voltage_level st i v = (.error .outOfRange, st, []))) ∧
    (∀ (st : HmpState) (i : ℕ) (s : OutputSpec) (v : ℚ),
      i < st.output_count → st.output_spec[i]? = some s →
      ((0 ≤ v ∧ v ≤ s.current_max) ↔ (hmp_set_output_current_limit st i v).1 = .ok ()) ∧
      (s.current_max < 0 → (hmp_set_output_current_limit st i v).1 = .error .outOfRange) ∧
      ((hmp_set_output_current_limit st i v).1 ≠ .ok () →
        hmp_set_output_current_limit st i v = (.error .outOfRange, st, []))) := by
  constructor
  · intro st i s v hi hs
    simp only [hmp_set_output_voltage_level, get_index, if_pos hi, hs]
    by_cases hM : s.voltage_max ≥ 0
    · rw [if_pos hM]
      by_cases hv : v < 0 ∨ v > s.voltage_max
      · rw [if_pos hv]
        refine ⟨fun _ => ⟨fun ⟨h1, h2⟩ => by rcases hv with h | h <;> linarith,
                          fun h => by simp at h⟩,
                fun hneg => absurd hM (not_le.mpr hneg), fun _ => rfl⟩
      · rw [if_neg hv]
        push_neg at hv
        refine ⟨fun _ => ⟨fun _ => rfl, fun _ => ⟨hv.1, hv.2⟩⟩,
                fun hneg => absurd hM (not_le.mpr hneg), fun hne => absurd rfl hne⟩
    · rw [if_neg hM]
      push_neg at hM
      by_cases hv : v > 0 ∨ v < s.voltage_max
      · rw [if_pos hv]
        refine ⟨fun hge => absurd hge (not_le.mpr hM),
                fun _ => ⟨fun ⟨h1, h2⟩ => by rcases hv with h | h <;> linarith,
                          fun h => by simp at h⟩, fun _ => rfl⟩
      · rw [if_neg hv]
        push_neg at hv
        refine ⟨fun hge => absurd hge (not_le.mpr hM),
                fun _ => ⟨fun _ => rfl, fun _ => ⟨hv.2, hv.1⟩⟩, fun hne => absurd rfl hne⟩
  · intro st i s v hi hs
    simp only [hmp_set_output_current_limit, get_index, if_pos hi, hs]
    by_cases hv : v < 0 ∨ v > s.current_max
    · rw [if_pos hv]
      refine ⟨⟨fun ⟨h1, h2⟩ => by rcases hv with h | h <;> linarith,
               fun h => by simp at h⟩, fun _ => rfl, fun _ => rfl⟩
    · rw [if_neg hv]
      push_neg at hv
      refine ⟨⟨fun _ => rfl, fun _ => ⟨hv.1, hv.2⟩⟩,
              fun hneg => absurd hv.2 (not_le.mpr (by linarith)), fun hne => absurd rfl hne⟩

/-- Witness for the C5 amended theorem on the concrete HMP2020 spec
(voltage_max 30, current_max 5) and the negative-maximum state: 10 V is
accepted, 31 V is rejected with the state untouched, 3 A is accepted, and
with current_max = -5 the value -2 is rejected. -/
theorem range_validation_exact_witness :
    (hmp_set_output_voltage_level (hmpInit true) 0 10).1 = .ok () ∧
    hmp_set_output_voltage_level (hmpInit true) 0 31 =
      (.error .outOfRange, hmpInit true, []) ∧
    (hmp_set_output_current_limit (hmpInit true) 0 3).1 = .ok () ∧
    (hmp_set_output_current_limit hmpNegSpec 0 (-2)).1 = .error .outOfRange :=
  ⟨((range_validation_exact.1 (hmpInit true) 0
      { ovp_max := 30, voltage_max := 30, current_max := 5 } 10 (by decide) rfl).1
      (by norm_num)).mp ⟨by norm_num, by norm_num⟩,
   (range_validation_exact.1 (hmpInit true) 0
      { ovp_max := 30, voltage_max := 30, current_max := 5 } 31 (by decide) rfl).2.2
      (fun h => by
        have h2 := ((range_validation_exact.1 (hmpInit true) 0
          { ovp_max := 30, voltage_max := 30, current_max := 5 } 31 (by decide) rfl).1
          (by norm_num)).mpr h
        exact absurd h2.2 (by norm_num)),
   ((range_validation_exact.2 (hmpInit true) 0
      { ovp_max := 30, voltage_max := 30, current_max := 5 } 3 (by decide) rfl).1).mp
      ⟨by norm_num, by norm_num⟩,
   (range_validation_exact.2 hmpNegSpec 0
      { ovp_max := 0, voltage_max := -10, current_max := -5 } (-2) (by decide) rfl).2.1
      (by norm_num)⟩

/-- C7 (spec-modelled base transport): with the simulate flag set, the
embedded operations perform no physical transport I/O — their event traces
are empty — while range and quantum validation are still enforced and the
cache value and validity flag are updated as if the write had occurred;
getters return the cached value and leave the state untouched. -/
theorem simulate_mode_skips_io_keeps_semantics :
    (∀ (st : HmpState) (i : ℕ) (v : ℚ), st.simulate = true →
      (hmp_set_output_voltage_level st i v).2.2 = [] ∧
      (hmp_set_output_current_limit st i v).2.2 = []) ∧
    (∀ (st : HmpState) (i : ℕ) (b : Bool), st.simulate = true →
      (hmp_set_output_enabled st i b).2.2 = []) ∧
    (∀ (d : HmpDevice) (st : HmpState) (i : ℕ), st.simulate = true →
      i < st.output_count →
      hmp_get_output_voltage_level d st i = (.ok (st.output_voltage_level i), st, []) ∧
      hmp_get_output_current_limit d st i = (.ok (st.output_current_limit i), st, [])) ∧
    (∀ (d : RigolDevice) (st : RigolState) (i : ℕ), st.simulate = true →
      i < st.output_count →
      rigol_get_output_enabled d st i = (.ok (st.output_enabled i), st, [])) ∧
    (∀ (st : RigolState) (i : ℕ) (b : Bool), st.simulate = true →
      i < st.output_count →
      rigol_set_output_enabled st i b =
        (.ok (), { st with output_enabled := upd st.output_enabled i b,
                           enabled_valid := upd st.enabled_valid i true }, [])) ∧
    (∀ (st : RigolState) (i : ℕ) (a : ImpedanceArg), st.simulate = true →
      (rigol_set_output_impedance st i a).2.2 = []) ∧
    (∀ (d : RigolDevice) (st : RigolState) (data : PyData), st.simulate = true →
      (rigol_arbitrary_waveform_create d st data).2.2 = []) ∧
    (∀ (st : HmpState) (i : ℕ) (s : OutputSpec) (v : ℚ), st.simulate = true →
      i < st.output_count → st.output_spec[i]? = some s → 0 ≤ s.voltage_max →
      0 ≤ v → v ≤ s.voltage_max →
      hmp_set_output_voltage_level st i v =
        (.ok (), { st with output_voltage_level := upd st.output_voltage_level i v,
                           voltage_level_valid := upd st.voltage_level_valid i true }, [])) ∧
    (∀ (st : HmpState) (i : ℕ) (s : OutputSpec) (v : ℚ), st.simulate = true →
      i < st.output_count → st.output_spec[i]? = some s → 0 ≤ s.voltage_max →
      (v < 0 ∨ v > s.voltage_max) →
      hmp_set_output_voltage_level st i v = (.error .outOfRange, st, [])) ∧
    (∀ (d : RigolDevice) (st : RigolState) (l : List ℚ), st.simulate = true →
      l.length % st.arbitrary_waveform_quantum ≠ 0 →
      rigol_arbitrary_waveform_create d st (.ndarray1d l) =
        (.error .valueNotSupported, st, [])) ∧
    (∀ (d : RigolDevice) (st : RigolState) (l : List ℚ), st.simulate = true →
      l.length % st.arbitrary_waveform_quantum = 0 →
      (rigol_arbitrary_waveform_create d st (.ndarray1d l)).1 =
        .ok (formatHandle (st.arbitrary_waveform_n + 1)) ∧
      ((rigol_arbitrary_waveform_create d st (.ndarray1d l)).2.1).arbitrary_waveform_n =
        st.arbitrary_waveform_n + 1) := by
  refine ⟨?_, ?_, ?_, ?_, ?_, ?_, ?_, ?_, ?_, ?_, ?_⟩
  · intro st i v h
    constructor
    · unfold hmp_set_output_voltage_level
      split
      · rfl
      · split
        · rfl
        · split_ifs <;> simp [h]
    · unfold hmp_set_output_current_limit
      split
      · rfl
      · split
        · rfl
        · split_ifs <;> simp [h]
  · intro st i b h
    unfold hmp_set_output_enabled
    split
    · rfl
    · simp [h]
  · intro d st i h hi
    constructor
    · unfold hmp_get_output_voltage_level
      simp [get_index, hi, h]
    · unfold hmp_get_output_current_limit
      simp [get_index, hi, h]
  · intro d st i h hi
    unfold rigol_get_output_enabled
    simp [get_index, hi, h]
  · intro st i b h hi
    unfold rigol_set_output_enabled
    simp [get_index, hi, h]
  · intro st i a h
    unfold rigol_set_output_impedance
    cases a <;> cases hgi : get_index st.output_count i <;> simp [hgi, h, baseWrite]
  · intro d st data h
    unfold rigol_arbitrary_waveform_create
    split
    · rfl
    next xy heq =>
      by_cases hq : xy.2.length % st.arbitrary_waveform_quantum ≠ 0 <;>
        simp [hq, h, rigol_load_catalog, baseWrite, baseBlockWrite]
  · intro st i s v h hi hs hM h0 hub
    simp only [hmp_set_output_voltage_level, get_index, if_pos hi, hs]
    rw [if_pos hM, if_neg (by push_neg; exact ⟨h0, hub⟩ : ¬ (v < 0 ∨ v > s.voltage_max))]
    simp [h]
  · intro st i s v h hi hs hM hv
    simp only [hmp_set_output_voltage_level, get_index, if_pos hi, hs]
    rw [if_pos hM, if_pos hv]
  · intro d st l h hq
    simp [rigol_arbitrary_waveform_create, pyDataXY, hq]
  · intro d st l h hq
    constructor <;>
      simp [rigol_arbitrary_waveform_create, pyDataXY, hq, rigol_load_catalog, h,
        nextFreeN]

/-- Witness for the C7 theorem: concrete simulated instruments — the
voltage setter updates the cache with no I/O, the getter reads it back with
no I/O, a 16-sample waveform upload produces no I/O but allocates handle
w0001.wfm, and a 10-sample upload is still rejected. -/
theorem simulate_mode_skips_io_keeps_semantics_witness :
    (hmp_set_output_voltage_level (hmpInit true) 0 10).2.2 = [] ∧
    hmp_get_output_voltage_level hmpDevZero (hmpInit true) 0 =
      (.ok ((hmpInit true).output_voltage_level 0), hmpInit true, []) ∧
    (rigol_arbitrary_waveform_create rigolDevEmpty (rigolInit true)
        (.ndarray1d (List.replicate 16 0))).2.2 = [] ∧
    (rigol_arbitrary_waveform_create rigolDevEmpty (rigolInit true)
        (.ndarray1d (List.replicate 16 0))).1 = .ok (formatHandle 1) ∧
    rigol_arbitrary_waveform_create rigolDevEmpty (rigolInit true)
        (.ndarray1d (List.replicate 10 0)) =
      (.error .valueNotSupported, rigolInit true, []) :=
  ⟨(simulate_mode_skips_io_keeps_semantics.1 (hmpInit true) 0 10 rfl).1,
   (simulate_mode_skips_io_keeps_semantics.2.2.1 hmpDevZero (hmpInit true) 0 rfl
      (by decide)).1,
   simulate_mode_skips_io_keeps_semantics.2.2.2.2.2.2.1 rigolDevEmpty (rigolInit true)
      (.ndarray1d (List.replicate 16 0)) rfl,
   (simulate_mode_skips_io_keeps_semantics.2.2.2.2.2.2.2.2.2.2 rigolDevEmpty
      (rigolInit true) (List.replicate 16 0) rfl (by decide)).1,
   simulate_mode_skips_io_keeps_semantics.2.2.2.2.2.2.2.2.2.1 rigolDevEmpty
      (rigolInit true) (List.replicate 10 0) rfl (by decide)⟩

/-- Loop correctness for the handle probe: whenever some candidate within
the fuel bound is absent from the catalog, the loop returns the least
counter above the start whose formatted name is absent from the catalog. -/
lemma nextFreeN_spec (cat : List String) :
    ∀ (fuel n0 : ℕ), (∃ k, k < fuel ∧ formatHandle (n0 + 1 + k) ∉ cat) →
      formatHandle (nextFreeN n0 cat fuel) ∉ cat ∧
      n0 < nextFreeN n0 cat fuel ∧
      ∀ j, n0 < j → j < nextFreeN n0 cat fuel → formatHandle j ∈ cat := by
  intro fuel
  induction fuel with
  | zero =>
    rintro n0 ⟨k, hk, -⟩
    omega
  | succ fuel ih =>
    rintro n0 ⟨k, hk, habs⟩
    by_cases hmem : formatHandle (n0 + 1) ∈ cat
    · have hk0 : k ≠ 0 := by
        rintro rfl
        exact habs (by simpa using hmem)
      obtain ⟨k', rfl⟩ := Nat.exists_eq_succ_of_ne_zero hk0
      have habs' : formatHandle (n0 + 1 + 1 + k') ∉ cat := by
        have harith : n0 + 1 + (k' + 1) = n0 + 1 + 1 + k' := by omega
        rwa [harith] at habs
      have hrec := ih (n0 + 1) ⟨k', by omega, habs'⟩
      have hstep : nextFreeN n0 cat (fuel + 1) = nextFreeN (n0 + 1) cat fuel := by
        simp [nextFreeN, hmem]
      rw [hstep]
      refine ⟨hrec.1, lt_trans (Nat.lt_succ_self n0) hrec.2.1, ?_⟩
      intro j hj1 hj2
      rcases eq_or_lt_of_le (Nat.succ_le_of_lt hj1) with hje | hjl
      · rw [← hje]
        exact hmem
      · exact hrec.2.2 j hjl hj2
    · have hstep : nextFreeN n0 cat (fuel + 1) = n0 + 1 := by
        simp [nextFreeN, hmem]
      rw [hstep]
      exact ⟨hmem, Nat.lt_succ_self n0, fun j hj1 hj2 => by omega⟩

/-- C6: on a fresh session (waveform counter 0), `_arbitrary_waveform_create`
fetches the catalog first (the trace starts with the catalog query) and
allocates the first counter whose formatted name `w%04d.wfm` is absent from
the fetched catalog: with w0001.wfm and w0002.wfm stored, the returned handle
is w0003.wfm — distinct from both entries, which were probed and found
present — and in general the probe loop returns the least counter above the
current one whose formatted name is absent from the catalog. -/
theorem handle_allocation_first_free :
    (rigol_arbitrary_waveform_create rigolDevCatalog12 (rigolInit false)
        (.ndarray1d (List.replicate 16 0))).1 = .ok "w0003.wfm" ∧
    ((rigol_arbitrary_waveform_create rigolDevCatalog12 (rigolInit false)
        (.ndarray1d (List.replicate 16 0))).2.1).arbitrary_waveform_n = 3 ∧
    (rigol_arbitrary_waveform_create rigolDevCatalog12 (rigolInit false)
        (.ndarray1d (List.replicate 16 0))).2.2.head? =
      some (Event.ask .memStateCatalogQuery) ∧
    "w0003.wfm" ∉ rigolDevCatalog12.catalogNames ∧
    "w0003.wfm" ≠ "w0001.wfm" ∧ "w0003.wfm" ≠ "w0002.wfm" ∧
    formatHandle 1 ∈ rigolDevCatalog12.catalogNames ∧
    formatHandle 2 ∈ rigolDevCatalog12.catalogNames ∧
    (∀ (n0 : ℕ) (cat : List String),
      (∃ k, k ≤ cat.length ∧ formatHandle (n0 + 1 + k) ∉ cat) →
      formatHandle (nextFreeN n0 cat (cat.length + 1)) ∉ cat ∧
      n0 < nextFreeN n0 cat (cat.length + 1) ∧
      ∀ j, n0 < j → j < nextFreeN n0 cat (cat.length + 1) → formatHandle j ∈ cat) := by
  refine ⟨rfl, rfl, rfl, by decide, by decide, by decide, by decide, by decide, ?_⟩
  rintro n0 cat ⟨k, hk, habs⟩
  exact nextFreeN_spec cat (cat.length + 1) n0 ⟨k, by omega, habs⟩

/-- Witness for the general conjunct of the C6 theorem: with one stored name
w0001.wfm and counter 0, the loop's result is absent from the catalog, above
the old counter, and every skipped candidate was present. -/
theorem handle_allocation_first_free_witness :
    formatHandle (nextFreeN 0 ["w0001.wfm"] 2) ∉ ["w0001.wfm"] ∧
    0 < nextFreeN 0 ["w0001.wfm"] 2 ∧
    ∀ j, 0 < j → j < nextFreeN 0 ["w0001.wfm"] 2 → formatHandle j ∈ ["w0001.wfm"] :=
  handle_allocation_first_free.2.2.2.2.2.2.2.2 0 ["w0001.wfm"]
    ⟨1, by norm_num, by decide⟩

end PyIvi
